import Mathlib

/-!
# Verification of the metaTutor adaptive tutoring agent

A shallow embedding of the Python sources of the metaTutor repository
(src/core/state.py, src/core/graph.py, src/agents/strategies.py,
src/agents/diagnostic.py, src/agents/teach_node.py, src/agents/practice_node.py,
src/agents/evaluate_node.py, src/agents/meta_reasoner_node.py,
src/agents/strategy_selector.py, src/config/parsers.py), together with
theorems about the embedded operations.

Modelling conventions:
* Python floats are modelled as exact rationals (`ℚ`); every constant that
  appears in the source (0.1, 0.3, 0.7, 0.8, ...) is translated literally.
* LLM calls and console input are external effects: each node takes an
  explicit oracle argument carrying the (already parsed or failed) response
  it would have obtained, where `none` stands for a parse failure or an
  exception absorbed by the caller.
* A node returns a partial-update dict that the workflow merges into the
  running state by whole-field replacement; we model node application as a
  function `AgentState → Oracle → AgentState` that performs exactly that
  merge (fields not in the returned dict keep their old value).
* Console output and the human-readable text of decision-log entries are
  irrelevant to every claim; log entries are appended (preserving count and
  order of appends) but their formatted numeric content is elided.
-/

namespace MetaTutor

/-- Clamping: `max lo (min hi x)`, the idiom `max(lo, min(hi, x))` used
throughout the Python sources. -/
def clampQ (lo hi x : ℚ) : ℚ := max lo (min hi x)

/-! ## src/core/state.py — data model -/

/-- The `TeachingStrategy` TypedDict from src/core/state.py. -/
structure TeachingStrategy where
  name : String
  description : String
  effectiveness : ℚ
  deriving Repr, DecidableEq

/-- The `LearningSession` TypedDict from src/core/state.py (the field set used by
the canonical pipeline's session records). -/
structure LearningSession where
  session_id : Nat
  topic : String
  strategy : String
  explanation : String
  question : String
  user_answer : String
  correct_answer : String
  feedback : String
  score : ℚ
  timestamp : String
  deriving Repr, DecidableEq

/-! ## src/agents/strategies.py — strategy catalog and per-run updates -/

/-- Source `get_default_strategies()`: the fixed 5-entry catalog, each at
effectiveness 0.7 (descriptions abbreviated; no claim depends on them). -/
def get_default_strategies : List TeachingStrategy :=
  [ ⟨"direct_explanation",
      "Provide clear, structured explanation with definitions and key concepts.", 0.7⟩,
    ⟨"socratic",
      "Guide understanding through thought-provoking questions.", 0.7⟩,
    ⟨"worked_example",
      "Demonstrate step-by-step problem solving with concrete example.", 0.7⟩,
    ⟨"analogy",
      "Explain using relatable real-world analogies and metaphors.", 0.7⟩,
    ⟨"visual",
      "Use diagrams, flowcharts, or visual representations.", 0.7⟩ ]

/-- Source `update_strategy_effectiveness(strategies, strategy_name, score, learning_rate)`
from src/agents/strategies.py: the loop that rebuilds the list, replacing the
matching entry's effectiveness by
`clamp(old*(1-learning_rate) + score*learning_rate, 0, 1)`.
The Python default `learning_rate=0.3` is passed explicitly at call sites. -/
def update_strategy_effectiveness :
    List TeachingStrategy → String → ℚ → ℚ → List TeachingStrategy
  | [], _, _, _ => []
  | s :: rest, strategy_name, score, learning_rate =>
    (if s.name = strategy_name then
      { s with effectiveness :=
          clampQ 0 1 (s.effectiveness * (1 - learning_rate) + score * learning_rate) }
    else s) :: update_strategy_effectiveness rest strategy_name score learning_rate

/-- Python `strategy_attempts.get(name, 0)` on the attempts dict
(modelled as an association list). -/
def attempts_get (m : List (String × Nat)) (k : String) : Nat :=
  (m.lookup k).getD 0

/-- Python `dict[key] = value` on the attempts dict: replace the binding if
the key is present, else add it. -/
def attempts_set (m : List (String × Nat)) (k : String) (v : Nat) :
    List (String × Nat) :=
  if m.any (fun p => p.1 = k) then
    m.map (fun p => if p.1 = k then (k, v) else p)
  else m ++ [(k, v)]

/-- Source `get_viable_strategies(strategies, strategy_attempts, max_attempts)` from
src/agents/strategies.py: keep the strategies tried fewer than `max_attempts`
times; if none qualify, return the whole input list. -/
def get_viable_strategies (strategies : List TeachingStrategy)
    (strategy_attempts : List (String × Nat)) (max_attempts : Nat) :
    List TeachingStrategy :=
  let viable := strategies.filter
    (fun s => attempts_get strategy_attempts s.name < max_attempts)
  if viable.isEmpty then strategies else viable

/-- Source `rank_strategies(strategies, recent_sessions)` from src/agents/strategies.py:
stable descending sort by effectiveness; `recent_sessions` is accepted but
unused, exactly as in the source. -/
def rank_strategies (strategies : List TeachingStrategy)
    (_recent_sessions : List LearningSession) : List TeachingStrategy :=
  strategies.mergeSort (fun a b => decide (b.effectiveness ≤ a.effectiveness))

/-! ## src/config/parsers.py — fallback records

JSON-ish values, enough to embed the fixed fallback records and the
teaching-content dicts that `_extract_explanation` reads. -/

inductive JVal where
  | str (s : String)
  | num (q : ℚ)
  | boolean (b : Bool)
  | arr (vs : List JVal)
  | obj (kvs : List (String × JVal))

/-- A parsed JSON object, as the Python dicts returned by the parsers. -/
abbrev JObj := List (String × JVal)

/-- Python `d.get(key, default)` where the call site uses the value as a
string (in the teaching-content dicts these keys are strings by schema). -/
def jget_str (d : JObj) (k : String) (dflt : String) : String :=
  match d.lookup k with
  | some (JVal.str s) => s
  | _ => dflt

/-- Python `d.get(key, [])` where the call site iterates a list of strings
(the `questions` key of socratic teaching content, strings by schema). -/
def jget_str_list (d : JObj) (k : String) : List String :=
  match d.lookup k with
  | some (JVal.arr vs) =>
    vs.filterMap (fun v => match v with | JVal.str s => some s | _ => none)
  | _ => []

/-- Python `d.get(key, [])` where the call site iterates a list of objects
(the `solution_steps` / `key_components` keys, objects by schema). -/
def jget_obj_list (d : JObj) (k : String) : List JObj :=
  match d.lookup k with
  | some (JVal.arr vs) =>
    vs.filterMap (fun v => match v with | JVal.obj kvs => some kvs | _ => none)
  | _ => []

/-- The `fallbacks` dict inside `_get_fallback_data` of src/config/parsers.py
(src/agents/parsers.py carries an identical copy). Note: there is no entry
for `parse_teaching_response`. -/
def fallback_table : List (String × JObj) :=
  [ ("parse_diagnostic_question",
      [ ("question", JVal.str "Can you explain the basic concept?"),
        ("expected_level", JVal.num 0.5),
        ("reasoning", JVal.str "Fallback question due to parsing error") ]),
    ("parse_answer_evaluation",
      [ ("quality_score", JVal.num 0.5),
        ("reasoning", JVal.str "Fallback evaluation due to parsing error"),
        ("strengths", JVal.arr [JVal.str "Attempted to answer"]),
        ("weaknesses", JVal.arr [JVal.str "Unable to evaluate properly"]),
        ("level_indication", JVal.str "intermediate") ]),
    ("parse_strategy_selection",
      [ ("chosen_strategy", JVal.str "direct_explanation"),
        ("reasoning", JVal.str "Fallback to direct explanation due to parsing error"),
        ("confidence", JVal.num 0.5) ]),
    ("parse_practice_question",
      [ ("question", JVal.str "What did you learn from the explanation?"),
        ("expected_answer", JVal.str "Student should demonstrate understanding"),
        ("difficulty", JVal.num 0.5),
        ("hints", JVal.arr []),
        ("reasoning", JVal.str "Fallback question due to parsing error") ]),
    ("parse_meta_reasoner_decision",
      [ ("next_action", JVal.str "continue"),
        ("goal_achieved", JVal.boolean false),
        ("needs_prerequisite", JVal.boolean false),
        ("prerequisite_topic", JVal.str ""),
        ("reasoning", JVal.str "Fallback decision: continue teaching"),
        ("confidence", JVal.num 0.5) ]) ]

/-- Source `_get_fallback_data(parser_name)` from src/config/parsers.py:
`fallbacks.get(parser_name, {"error": "Unknown parser"})`. -/
def get_fallback_data (parser_name : String) : JObj :=
  match fallback_table.lookup parser_name with
  | some d => d
  | none => [("error", JVal.str "Unknown parser")]

/-- The teaching-content value `teach_node` ends up with:
`parse_teaching_response` either succeeds (`some d`), or raises, in which
case the except-branch calls `safe_parse(response, parse_teaching_response,
strategy)`, which re-runs the same deterministic parser on the same text,
catches the same `ParseError`, and returns
`_get_fallback_data("parse_teaching_response")`. -/
def teach_node_teaching_data (parse_result : Option JObj) : JObj :=
  match parse_result with
  | some d => d
  | none => get_fallback_data "parse_teaching_response"

/-! ## src/core/state.py — AgentState and its factory

The running state is a Python dict; nodes read even absent keys via
`state.get(key, default)`. We model it as a total record whose constructor
(`create_initial_state`) assigns to each field either the value set by the
source factory or, for the diagnostic keys the factory does not set
(`diagnostic_confidence`, `diagnostic_questions`, `diagnostic_answers`,
`estimated_level`), the `.get` default used at their first read
(0.0, [], [], 0.2 respectively). -/

structure AgentState where
  topic : String
  learning_goal : String
  diagnostic_confidence : ℚ
  diagnostic_questions : List String
  diagnostic_answers : List String
  estimated_level : ℚ
  current_proficiency : ℚ
  target_proficiency : ℚ
  current_strategy : String
  available_strategies : List TeachingStrategy
  strategy_attempts : List (String × Nat)
  consecutive_failures : Nat
  stuck_counter : Nat
  sessions : List LearningSession
  current_explanation : String
  current_question : String
  current_correct_answer : String
  current_user_answer : String
  current_question_difficulty : ℚ
  current_teaching_data : JObj
  needs_prerequisite : Bool
  prerequisite_topic : String
  decision_log : List String
  next_action : String
  goal_achieved : Bool
  max_attempts : Nat
  current_attempt : Nat

/-- Source `create_initial_state(topic)` from src/core/state.py. -/
def create_initial_state (topic : String) : AgentState where
  topic := topic
  learning_goal := "Master " ++ topic
  diagnostic_confidence := 0
  diagnostic_questions := []
  diagnostic_answers := []
  estimated_level := 0.2
  current_proficiency := 0
  target_proficiency := 0.8
  current_strategy := ""
  available_strategies := []
  strategy_attempts := []
  consecutive_failures := 0
  stuck_counter := 0
  sessions := []
  current_explanation := ""
  current_question := ""
  current_correct_answer := ""
  current_user_answer := ""
  current_question_difficulty := 0.5
  current_teaching_data := []
  needs_prerequisite := false
  prerequisite_topic := ""
  decision_log := []
  next_action := "diagnose"
  goal_achieved := false
  max_attempts := 10
  current_attempt := 0

/-! ## src/agents/diagnostic.py — diagnostic subsystem -/

def MIN_DIAGNOSTIC_CONFIDENCE : ℚ := 0.8
def MAX_DIAGNOSTIC_QUESTIONS : Nat := 5
def CONFIDENCE_INCREMENT : ℚ := 0.1

/-- Source `calculate_level_adjustment(answer_quality, expected_level,
current_estimated_level)` from src/agents/diagnostic.py. -/
def calculate_level_adjustment
    (answer_quality expected_level current_estimated_level : ℚ) : ℚ :=
  let adjustment : ℚ :=
    if 0.8 ≤ answer_quality then 0.15
    else if 0.6 ≤ answer_quality then 0.08
    else if 0.4 ≤ answer_quality then
      (if current_estimated_level < expected_level then -0.05 else 0.02)
    else if 0.2 ≤ answer_quality then -0.10
    else -0.20
  let level_difference := expected_level - current_estimated_level
  let adjustment : ℚ :=
    if 0.2 < level_difference then
      (if 0.6 < answer_quality then adjustment * 1.5 else adjustment * 0.5)
    else if level_difference < -0.2 then
      (if answer_quality < 0.4 then adjustment * 1.5 else adjustment * 0.5)
    else adjustment
  clampQ (-0.25) 0.25 adjustment

/-- A successfully parsed `DiagnosticQuestion` (question text and its
expected difficulty level; the reasoning string is log-only). -/
structure DiagnosticQuestion where
  question : String
  expected_level : ℚ

/-- External effects of one diagnostic step: the (possibly failed) parse of
the LLM's diagnostic question, the learner's console answer, and the
`quality_score` of the `evaluate_answer_quality` result (that helper never
raises: it substitutes a neutral 0.5 record internally on any error, so the
oracle supplies the score it returned, whatever its provenance). -/
structure DiagStepOracle where
  parsed_question : Option DiagnosticQuestion
  user_answer : String
  evaluation_quality : ℚ

/-- Source `adaptive_diagnostic_node(state)` from src/agents/diagnostic.py, with its
partial-update dict merged into the state. -/
def adaptive_diagnostic_node (st : AgentState) (o : DiagStepOracle) : AgentState :=
  let confidence := st.diagnostic_confidence
  let questions := st.diagnostic_questions
  let estimated_level := st.estimated_level
  if MIN_DIAGNOSTIC_CONFIDENCE ≤ confidence then
    { st with decision_log := st.decision_log ++ ["Diagnostic complete"] }
  else if MAX_DIAGNOSTIC_QUESTIONS ≤ questions.length then
    { st with
        diagnostic_confidence := MIN_DIAGNOSTIC_CONFIDENCE,
        decision_log := st.decision_log ++ ["Max questions reached, forcing completion"] }
  else
    -- try/except around the LLM call plus the None-check both land on the
    -- same synthetic fallback question with expected_level = estimated_level
    let next_question :=
      match o.parsed_question with
      | some dq => dq.question
      | none => "Explain the basic concept of " ++ st.topic ++ "."
    let expected_level :=
      match o.parsed_question with
      | some dq => dq.expected_level
      | none => estimated_level
    let new_questions := questions ++ [next_question]
    let new_answers := st.diagnostic_answers ++ [o.user_answer]
    let level_adjustment :=
      calculate_level_adjustment o.evaluation_quality expected_level estimated_level
    let new_estimated_level := max 0 (min 1 (estimated_level + level_adjustment))
    let new_confidence := min 1 (confidence + CONFIDENCE_INCREMENT)
    { st with
        diagnostic_questions := new_questions,
        diagnostic_answers := new_answers,
        diagnostic_confidence := new_confidence,
        estimated_level := new_estimated_level,
        decision_log := st.decision_log ++ ["Diagnostic question asked"] }

/-- The `while confidence < MIN_DIAGNOSTIC_CONFIDENCE and num_questions <
MAX_DIAGNOSTIC_QUESTIONS` loop of `diagnostic_phase_node` in
src/core/graph.py. The oracle is indexed by the question count at the time
of the call. The fuel argument only bounds recursion: every loop iteration
appends exactly one question, so `MAX_DIAGNOSTIC_QUESTIONS` iterations always
suffice and the loop provably stops because its condition fails, never
because fuel runs out (see `diagnostic_phase_loop_exits`). -/
def diagnostic_phase_loop :
    Nat → AgentState → (Nat → DiagStepOracle) → AgentState
  | 0, st, _ => st
  | Nat.succ fuel, st, oracle =>
    if st.diagnostic_confidence < MIN_DIAGNOSTIC_CONFIDENCE ∧
        st.diagnostic_questions.length < MAX_DIAGNOSTIC_QUESTIONS then
      diagnostic_phase_loop fuel
        (adaptive_diagnostic_node st (oracle st.diagnostic_questions.length)) oracle
    else st

/-- Source `diagnostic_phase_node(state)` from src/core/graph.py, with its returned
update dict merged into the state: either the diagnostic is already complete
(confidence at threshold), or the internal loop runs to completion; in both
cases `current_proficiency` is seeded from the final `estimated_level`. -/
def diagnostic_phase_node (st : AgentState)
    (oracle : Nat → DiagStepOracle) : AgentState :=
  if MIN_DIAGNOSTIC_CONFIDENCE ≤ st.diagnostic_confidence then
    { st with
        current_proficiency := st.estimated_level,
        decision_log := st.decision_log ++ ["Diagnostic phase complete"] }
  else
    let w := diagnostic_phase_loop MAX_DIAGNOSTIC_QUESTIONS st oracle
    { w with
        current_proficiency := w.estimated_level,
        decision_log := w.decision_log ++ ["Diagnostic complete"] }

/-! ## src/agents/teach_node.py — teach node -/

/-- Source `_extract_explanation(strategy, teaching_data)` from
src/agents/teach_node.py. Python string slices `[:100]` become
`String.take 100`; `'; '.join(questions)` becomes `String.intercalate`. -/
def extract_explanation (strategy : String) (teaching_data : JObj) : String :=
  if strategy = "direct_explanation" then
    jget_str teaching_data "explanation" "Direct explanation provided"
  else if strategy = "socratic" then
    let questions := jget_str_list teaching_data "questions"
    if questions.isEmpty then "Socratic questions provided"
    else "Socratic questions: " ++ String.intercalate "; " questions
  else if strategy = "worked_example" then
    let problem := jget_str teaching_data "problem_statement" "Worked example provided"
    let steps := jget_obj_list teaching_data "solution_steps"
    -- display text: numeric step labels render via their string form in
    -- Python; here a non-string `step` value renders as the "?" default
    if steps.isEmpty then "Worked example: " ++ problem.take 100 ++ "..."
    else "Worked example: " ++ problem.take 100 ++ "... Steps: " ++
      String.intercalate "; " ((steps.take 3).map (fun s =>
        "Step " ++ jget_str s "step" "?" ++ ": " ++ jget_str s "action" ""))
  else if strategy = "analogy" then
    let analogy := jget_str teaching_data "analogy_concept" "Analogy provided"
    let explanation := jget_str teaching_data "explanation" ""
    if explanation = "" then "Analogy: " ++ analogy
    else "Analogy: " ++ analogy ++ ". " ++ explanation.take 100 ++ "..."
  else if strategy = "visual" then
    let visual_type := jget_str teaching_data "visual_type" "Visual representation"
    let description := jget_str teaching_data "visual_description" ""
    if description = "" then "Visual: " ++ visual_type
    else "Visual (" ++ visual_type ++ "): " ++ description.take 100 ++ "..."
  else "Teaching content provided"

/-- External effect of the teach node: the teaching-content parse outcome
(`none` = `parse_teaching_response` raised `ParseError`). -/
structure TeachOracle where
  parse_result : Option JObj

/-- Source `teach_node(state)` from src/agents/teach_node.py merged into the state
(the console rendering of successful content is display-only). -/
def teach_node (st : AgentState) (o : TeachOracle) : AgentState :=
  let strategy := st.current_strategy
  let teaching_data := teach_node_teaching_data o.parse_result
  let explanation := extract_explanation strategy teaching_data
  { st with
      current_explanation := explanation,
      current_teaching_data := teaching_data,
      decision_log := st.decision_log ++
        ["Taught " ++ st.topic ++ " using " ++ strategy ++ " strategy"] }

/-! ## src/agents/practice_node.py and src/agents/evaluate_node.py -/

/-- Source `_extract_explanation_for_session(strategy, teaching_data,
current_explanation)`: an identical private helper appears in both
src/agents/practice_node.py and src/agents/evaluate_node.py. -/
def extract_explanation_for_session (strategy : String) (teaching_data : JObj)
    (current_explanation : String) : String :=
  if current_explanation ≠ "" then current_explanation
  else if teaching_data.isEmpty then "Teaching content provided"
  else if strategy = "direct_explanation" then
    jget_str teaching_data "explanation" "Direct explanation provided"
  else if strategy = "socratic" then
    let questions := jget_str_list teaching_data "questions"
    if questions.isEmpty then "Socratic questions provided"
    else "Socratic questions: " ++ String.intercalate "; " (questions.take 2) ++ "..."
  else if strategy = "worked_example" then
    "Worked example: " ++
      (jget_str teaching_data "problem_statement" "Worked example provided").take 100 ++ "..."
  else if strategy = "analogy" then
    "Analogy: " ++ jget_str teaching_data "analogy_concept" "Analogy provided"
  else if strategy = "visual" then
    "Visual: " ++ jget_str teaching_data "visual_type" "Visual representation"
  else "Teaching content provided"

/-- A parsed-or-fallback practice-question record, after the node's
`.get` defaults have been applied. -/
structure PracticeQuestionData where
  question : String
  expected_answer : String
  difficulty : ℚ
  hints : List String
  reasoning : String
  deriving Repr, DecidableEq

/-- The fallback practice-question record of `_get_fallback_data`. -/
def practice_fallback : PracticeQuestionData where
  question := "What did you learn from the explanation?"
  expected_answer := "Student should demonstrate understanding"
  difficulty := 0.5
  hints := []
  reasoning := "Fallback question due to parsing error"

/-- External effects of the practice node: the practice-question parse
outcome (`none` = `parse_practice_question` raised, so `safe_parse`
substitutes `practice_fallback`), the learner's stripped console answer, and
the `quality_score`/`reasoning` of the `evaluate_answer_quality` call (which
never raises), plus the session timestamp. -/
structure PracticeOracle where
  parsed : Option PracticeQuestionData
  user_answer : String
  eval_quality : ℚ
  eval_reasoning : String
  timestamp : String

/-- One `record_session(...)` call on the global `effectiveness_tracker`
(strategy, score, topic, user_level). -/
structure TrackerRecord where
  strategy : String
  score : ℚ
  topic : String
  user_level : ℚ
  deriving Repr, DecidableEq

/-- Source `practice_node(state)` from src/agents/practice_node.py, with its
returned update dict merged into the state. Note which keys the source
returns: `current_question`, `current_correct_answer`, `sessions`,
`available_strategies`, `current_proficiency`, `consecutive_failures`,
`stuck_counter`, `decision_log` — and which it does not
(`current_user_answer`, `current_question_difficulty` stay untouched). -/
def practice_node (st : AgentState) (o : PracticeOracle) : AgentState :=
  let strategy := st.current_strategy
  let student_level := st.current_proficiency
  let practice_data := o.parsed.getD practice_fallback
  let question := practice_data.question
  let expected_answer := practice_data.expected_answer
  let user_answer := o.user_answer
  let session_score := o.eval_quality
  let session_id := st.sessions.length + 1
  let explanation :=
    extract_explanation_for_session strategy st.current_teaching_data st.current_explanation
  let session_record : LearningSession :=
    { session_id := session_id, strategy := strategy, score := session_score,
      topic := st.topic, explanation := explanation, question := question,
      user_answer := user_answer, correct_answer := expected_answer,
      feedback := o.eval_reasoning, timestamp := o.timestamp }
  let new_sessions := st.sessions ++ [session_record]
  let updated_strategies :=
    update_strategy_effectiveness st.available_strategies strategy session_score 0.3
  let proficiency_gain := session_score * 0.1
  let new_proficiency := min 1 (student_level + proficiency_gain)
  { st with
      current_question := question,
      current_correct_answer := expected_answer,
      sessions := new_sessions,
      available_strategies := updated_strategies,
      current_proficiency := new_proficiency,
      consecutive_failures :=
        if 0.6 ≤ session_score then 0 else st.consecutive_failures + 1,
      stuck_counter :=
        if 0.6 ≤ session_score then 0 else st.stuck_counter + 1,
      decision_log := st.decision_log ++ ["Practice session"] }

/-- The `track_session_effectiveness(strategy, session_score, topic,
student_level)` call practice_node makes on the global tracker. -/
def practice_tracker_records (st : AgentState) (o : PracticeOracle) :
    List TrackerRecord :=
  [⟨st.current_strategy, o.eval_quality, st.topic, st.current_proficiency⟩]

/-- Source `_calculate_proficiency_gain(score, current_level, difficulty)` from
src/agents/evaluate_node.py (the leading underscore is dropped). -/
def calculate_proficiency_gain (score current_level difficulty : ℚ) : ℚ :=
  let base_gain := score * 0.1
  let level_difference := difficulty - current_level
  let base_gain :=
    if 0.2 < level_difference then
      if 0.7 ≤ score then base_gain * 1.3
      else if score < 0.4 then base_gain * 0.7
      else base_gain
    else if level_difference < -0.2 then
      if score < 0.6 then base_gain * 0.8 else base_gain
    else base_gain
  clampQ (-0.15) 0.15 base_gain

/-- A parsed answer-evaluation record (`parse_answer_evaluation` result). -/
structure AnswerEvaluationData where
  quality_score : ℚ
  reasoning : String
  strengths : List String
  weaknesses : List String
  level_indication : String
  deriving Repr, DecidableEq

/-- The fallback answer-evaluation record of `_get_fallback_data`. -/
def evaluation_fallback : AnswerEvaluationData where
  quality_score := 0.5
  reasoning := "Fallback evaluation due to parsing error"
  strengths := ["Attempted to answer"]
  weaknesses := ["Unable to evaluate properly"]
  level_indication := "intermediate"

/-- External effects of the evaluate node: the answer-evaluation parse
outcome (`none` = `parse_answer_evaluation` raised, so `safe_parse`
substitutes `evaluation_fallback`) and the session timestamp. -/
structure EvalOracle where
  parsed : Option AnswerEvaluationData
  timestamp : String

/-- Source `evaluate_node(state)` from src/agents/evaluate_node.py, with its
returned update dict merged into the state. With no pending question the
node returns the empty update (the state is unchanged). -/
def evaluate_node (st : AgentState) (o : EvalOracle) : AgentState :=
  if st.current_question = "" then st
  else
    let strategy := st.current_strategy
    let student_level := st.current_proficiency
    let difficulty := st.current_question_difficulty
    let evaluation := o.parsed.getD evaluation_fallback
    let session_score := evaluation.quality_score
    let proficiency_gain := calculate_proficiency_gain session_score student_level difficulty
    let new_proficiency := min 1 (max 0 (student_level + proficiency_gain))
    let session_id := st.sessions.length + 1
    let explanation :=
      extract_explanation_for_session strategy st.current_teaching_data st.current_explanation
    let session_record : LearningSession :=
      { session_id := session_id, strategy := strategy, score := session_score,
        topic := st.topic, explanation := explanation,
        question := st.current_question, user_answer := st.current_user_answer,
        correct_answer := st.current_correct_answer,
        feedback := evaluation.reasoning, timestamp := o.timestamp }
    let updated_strategies :=
      update_strategy_effectiveness st.available_strategies strategy session_score 0.3
    let new_sessions := st.sessions ++ [session_record]
    let is_success := 0.6 ≤ session_score
    { st with
        sessions := new_sessions,
        available_strategies := updated_strategies,
        current_proficiency := new_proficiency,
        consecutive_failures :=
          if is_success then 0 else st.consecutive_failures + 1,
        stuck_counter := if is_success then 0 else st.stuck_counter + 1,
        current_attempt := st.current_attempt + 1,
        decision_log := st.decision_log ++ ["Evaluation"] }

/-! ## src/agents/meta_reasoner_node.py and src/agents/strategy_selector.py -/

/-- A parsed meta-reasoner decision (`parse_meta_reasoner_decision` result,
with its internal defaults already applied). -/
structure MetaDecisionData where
  next_action : String
  goal_achieved : Bool
  needs_prerequisite : Bool
  prerequisite_topic : String
  reasoning : String
  confidence : ℚ
  deriving Repr, DecidableEq

/-- The fallback meta-reasoner decision of `_get_fallback_data`. -/
def meta_fallback : MetaDecisionData where
  next_action := "continue"
  goal_achieved := false
  needs_prerequisite := false
  prerequisite_topic := ""
  reasoning := "Fallback decision: continue teaching"
  confidence := 0.5

structure MetaOracle where
  parsed : Option MetaDecisionData

/-- Source `meta_reasoner_node(state)` from src/agents/meta_reasoner_node.py, with
its update dict merged into the state. The progress/trend figures the node
computes feed only the prompt text, which the oracle abstracts. -/
def meta_reasoner_node (st : AgentState) (o : MetaOracle) : AgentState :=
  let d := o.parsed.getD meta_fallback
  { st with
      next_action := d.next_action,
      goal_achieved := d.goal_achieved,
      needs_prerequisite := d.needs_prerequisite,
      prerequisite_topic := d.prerequisite_topic,
      decision_log := st.decision_log ++ ["Meta-Reasoner decision"] }

/-- A parsed strategy-selection decision. -/
structure StrategySelectionData where
  chosen_strategy : String
  reasoning : String
  confidence : ℚ
  deriving Repr, DecidableEq

/-- External effect of the strategy selector: `none` when the LLM call or
`parse_strategy_selection` raised (the node then falls back to the
top-ranked viable strategy). -/
structure SelectorOracle where
  parsed : Option StrategySelectionData

/-- Source `strategy_selector_node(state)` from src/agents/strategy_selector.py,
with its update dict merged into the state. -/
def strategy_selector_node (st : AgentState) (o : SelectorOracle) : AgentState :=
  let viable := get_viable_strategies st.available_strategies st.strategy_attempts 2
  if viable.isEmpty then
    { st with
        strategy_attempts := st.available_strategies.map (fun s => (s.name, 0)),
        decision_log := st.decision_log ++
          ["Reset strategy attempts - trying fresh approach"] }
  else
    let ranked := rank_strategies viable st.sessions
    let top_ranked := (ranked.head?.map (fun s => s.name)).getD ""
    let chosen0 :=
      match o.parsed with
      | some d => d.chosen_strategy
      | none => top_ranked
    let valid_names := viable.map (fun s => s.name)
    let chosen := if valid_names.contains chosen0 then chosen0 else top_ranked
    let new_attempts :=
      attempts_set st.strategy_attempts chosen (attempts_get st.strategy_attempts chosen + 1)
    { st with
        current_strategy := chosen,
        strategy_attempts := new_attempts,
        decision_log := st.decision_log ++ ["Strategy selected"] }

/-! ## src/core/graph.py — routing and the canonical workflow -/

/-- Source `route_decision(state)` from src/core/graph.py. -/
def route_decision (st : AgentState) : String :=
  if st.max_attempts ≤ st.current_attempt then "end"
  else if st.goal_achieved then "end"
  else if st.next_action = "continue" ∧ st.goal_achieved = false then
    "strategy_selector"
  else "end"

/-- One node invocation of the canonical workflow, tagged with the external
effects (oracle) it consumed. -/
inductive NodeStep where
  | diagnostic (oracle : Nat → DiagStepOracle)
  | selector (o : SelectorOracle)
  | teach (o : TeachOracle)
  | practice (o : PracticeOracle)
  | evaluate (o : EvalOracle)
  | meta (o : MetaOracle)

/-- Apply one canonical node to the running state. -/
def apply_node (st : AgentState) : NodeStep → AgentState
  | NodeStep.diagnostic oracle => diagnostic_phase_node st oracle
  | NodeStep.selector o => strategy_selector_node st o
  | NodeStep.teach o => teach_node st o
  | NodeStep.practice o => practice_node st o
  | NodeStep.evaluate o => evaluate_node st o
  | NodeStep.meta o => meta_reasoner_node st o

/-- A run of the canonical workflow: the sequence of node invocations the
graph performs, applied in order to the initial state. -/
def run_nodes (st : AgentState) (steps : List NodeStep) : AgentState :=
  steps.foldl apply_node st

/-- The session-numbering invariant: the recorded `session_id`s are exactly
1, 2, ..., n in order. -/
def sessions_sequential (l : List LearningSession) : Prop :=
  l.map (fun s => s.session_id) = List.range' 1 l.length

/-! ## Concrete example inputs (for witnesses and counterexamples) -/

/-- A mid-run state: proficiency 0.5, a pending practice question, the
default catalog active. -/
def demo_eval_state : AgentState :=
  { create_initial_state "binary search" with
      current_proficiency := 0.5,
      current_question := "What is the time complexity of binary search?",
      current_user_answer := "It is O(log n).",
      current_strategy := "direct_explanation",
      available_strategies := get_default_strategies,
      strategy_attempts := [("direct_explanation", 1)] }

/-- A successfully parsed answer evaluation scoring 0.75. -/
def demo_eval_oracle : EvalOracle where
  parsed := some
    { quality_score := 0.75, reasoning := "Correct complexity with reasoning",
      strengths := ["Correct answer"], weaknesses := [],
      level_indication := "intermediate" }
  timestamp := "2024-01-01T10:00:00"

/-- A fresh state entering the practice node with the default catalog. -/
def demo_practice_state : AgentState :=
  { create_initial_state "binary search" with
      current_strategy := "direct_explanation",
      available_strategies := get_default_strategies,
      strategy_attempts := [("direct_explanation", 1)] }

/-- A practice step whose parsed question is answered poorly (score 0.3). -/
def demo_practice_oracle : PracticeOracle where
  parsed := some
    { question := "State the precondition of binary search.",
      expected_answer := "The array must be sorted.",
      difficulty := 0.5, hints := [], reasoning := "" }
  user_answer := "no idea"
  eval_quality := 0.3
  eval_reasoning := "The answer does not address the question"
  timestamp := "2024-01-01T10:05:00"

/-- A diagnostic oracle whose every step fails to parse the LLM question
(falling back to the synthetic question) and whose answers are graded at
the neutral quality 0.5. -/
def demo_diag_oracle : Nat → DiagStepOracle :=
  fun _ => { parsed_question := none, user_answer := "I am not sure",
             evaluation_quality := 0.5 }

/-! ## Helper lemmas -/

theorem clampQ_le (lo hi x : ℚ) (h : lo ≤ hi) : clampQ lo hi x ≤ hi :=
  max_le h (min_le_left _ _)

theorem le_clampQ (lo hi x : ℚ) : lo ≤ clampQ lo hi x := le_max_left _ _

theorem clampQ_eq_of_le (lo hi x : ℚ) (h1 : lo ≤ x) (h2 : x ≤ hi) :
    clampQ lo hi x = x := by
  unfold clampQ
  rw [min_eq_right h2, max_eq_right h1]

/-- Pointwise characterization of the effectiveness update. -/
theorem update_strategy_effectiveness_eq_map (l : List TeachingStrategy)
    (n : String) (sc lr : ℚ) :
    update_strategy_effectiveness l n sc lr =
      l.map (fun s =>
        if s.name = n then
          { s with effectiveness :=
              clampQ 0 1 (s.effectiveness * (1 - lr) + sc * lr) }
        else s) := by
  induction l with
  | nil => rfl
  | cons h t ih => simp [update_strategy_effectiveness, ih]

/-! ## Claim theorems -/

/-- C1: for every session state in which `current_attempt >= max_attempts`,
`route_decision` (the routing function at the meta-reasoner node of
src/core/graph.py) returns the terminal outcome `"end"`, never
`"strategy_selector"` — in particular also when `next_action` is
`"continue"` and `goal_achieved` is false, so the workflow never takes the
continue edge once the attempt budget is reached. -/
theorem route_decision_forces_end_at_max_attempts (st : AgentState)
    (h : st.max_attempts ≤ st.current_attempt) : route_decision st = "end" := by
  unfold route_decision
  rw [if_pos h]

/-- Witness for C1: a concrete state at the attempt budget whose advisory
decision says continue with the goal not achieved still routes to `"end"`. -/
theorem route_decision_forces_end_at_max_attempts_witness :
    ({ create_initial_state "binary search" with
        next_action := "continue", goal_achieved := false,
        current_attempt := 10 } : AgentState).max_attempts ≤ 10 ∧
    route_decision { create_initial_state "binary search" with
        next_action := "continue", goal_achieved := false,
        current_attempt := 10 } = "end" :=
  ⟨by decide,
   route_decision_forces_end_at_max_attempts
     { create_initial_state "binary search" with
        next_action := "continue", goal_achieved := false,
        current_attempt := 10 } (by decide)⟩

/-- C4: with the default learning rate 0.3,
`update_strategy_effectiveness` maps the matching entry's effectiveness to
`clamp(old*0.7 + score*0.3, 0, 1)`, leaves every non-matching entry
unchanged, returns a list of the same length (entries never removed), and
in particular sends old effectiveness 0.70 with score 0.90 to 0.76 and old
0.70 with score 0.0 to 0.49. -/
theorem update_strategy_effectiveness_spec :
    (∀ (l : List TeachingStrategy) (n : String) (sc : ℚ),
      update_strategy_effectiveness l n sc 0.3 =
        l.map (fun s =>
          if s.name = n then
            { s with effectiveness := clampQ 0 1 (s.effectiveness * 0.7 + sc * 0.3) }
          else s)) ∧
    (∀ (l : List TeachingStrategy) (n : String) (sc : ℚ),
      (update_strategy_effectiveness l n sc 0.3).length = l.length) ∧
    update_strategy_effectiveness [⟨"socratic", "d", 0.7⟩] "socratic" 0.9 0.3 =
      [⟨"socratic", "d", 0.76⟩] ∧
    update_strategy_effectiveness [⟨"socratic", "d", 0.7⟩] "socratic" 0 0.3 =
      [⟨"socratic", "d", 0.49⟩] := by
  refine ⟨fun l n sc => ?_, fun l n sc => ?_, ?_, ?_⟩
  · rw [update_strategy_effectiveness_eq_map]
    norm_num
  · rw [update_strategy_effectiveness_eq_map, List.length_map]
  · simp [update_strategy_effectiveness, clampQ]
    norm_num
  · simp [update_strategy_effectiveness, clampQ]
    norm_num

/-- C5: `calculate_level_adjustment` always returns a value in
[-0.25, 0.25], and at quality 0.9, expected level 0.9, current estimate 0.5
(gap 0.4 > 0.2 and quality > 0.6) it returns exactly 0.15 * 1.5 = 0.225. -/
theorem calculate_level_adjustment_spec :
    (∀ q e c : ℚ,
      -0.25 ≤ calculate_level_adjustment q e c ∧
      calculate_level_adjustment q e c ≤ 0.25) ∧
    calculate_level_adjustment 0.9 0.9 0.5 = 0.225 := by
  constructor
  · intro q e c
    exact ⟨le_clampQ _ _ _, clampQ_le _ _ _ (by norm_num)⟩
  · simp only [calculate_level_adjustment]
    norm_num [clampQ]

/-- C6: the evaluate node's `_calculate_proficiency_gain` always returns a
value in [-0.15, 0.15], and score 1.0 with difficulty equal to the current
level yields a gain of exactly 0.10. -/
theorem calculate_proficiency_gain_spec :
    (∀ s c d : ℚ,
      -0.15 ≤ calculate_proficiency_gain s c d ∧
      calculate_proficiency_gain s c d ≤ 0.15) ∧
    (∀ c : ℚ, calculate_proficiency_gain 1 c c = 0.1) := by
  constructor
  · intro s c d
    exact ⟨le_clampQ _ _ _, clampQ_le _ _ _ (by norm_num)⟩
  · intro c
    simp only [calculate_proficiency_gain, sub_self]
    norm_num [clampQ]

/-- C7: for every non-empty strategies list and attempts map,
`get_viable_strategies` (with the cap 2 used by the selector) never returns
an empty list; it returns exactly the entries with attempt count below 2,
and when every strategy has at least 2 attempts it returns the entire
unfiltered input catalog. -/
theorem get_viable_strategies_spec (l : List TeachingStrategy)
    (att : List (String × Nat)) (hne : l ≠ []) :
    get_viable_strategies l att 2 ≠ [] ∧
    (l.filter (fun s => attempts_get att s.name < 2) ≠ [] →
      get_viable_strategies l att 2 =
        l.filter (fun s => attempts_get att s.name < 2)) ∧
    ((∀ s ∈ l, 2 ≤ attempts_get att s.name) →
      get_viable_strategies l att 2 = l) := by
  have hdef : get_viable_strategies l att 2 =
      if (l.filter (fun s => attempts_get att s.name < 2)).isEmpty then l
      else l.filter (fun s => attempts_get att s.name < 2) := rfl
  refine ⟨?_, ?_, ?_⟩
  · rw [hdef]
    split
    · exact hne
    · next hv => simpa [List.isEmpty_iff] using hv
  · intro hfil
    rw [hdef, if_neg (by simpa [List.isEmpty_iff] using hfil)]
  · intro hall
    have hfil : l.filter (fun s => attempts_get att s.name < 2) = [] := by
      simp only [List.filter_eq_nil_iff]
      intro s hs
      simpa using not_lt.mpr (hall s hs)
    rw [hdef, if_pos (by simp [List.isEmpty_iff, hfil])]

/-- Witness for C7: the full default catalog with every attempt counter at
the cap is returned whole (and in particular non-empty). -/
theorem get_viable_strategies_spec_witness :
    get_default_strategies ≠ [] ∧
    get_viable_strategies get_default_strategies
      [("direct_explanation", 2), ("socratic", 2), ("worked_example", 3),
       ("analogy", 2), ("visual", 2)] 2 = get_default_strategies :=
  ⟨by decide,
   (get_viable_strategies_spec get_default_strategies
      [("direct_explanation", 2), ("socratic", 2), ("worked_example", 3),
       ("analogy", 2), ("visual", 2)] (by decide)).2.2 (by decide)⟩

/-- For a value already in [0, 0.13], the evaluate node's [-0.15, 0.15]
clamp is the identity and the bounds carry over. -/
theorem clampQ_bounds_of_unit (v : ℚ) (h0 : 0 ≤ v) (h13 : v ≤ 0.13) :
    0 ≤ clampQ (-0.15) 0.15 v ∧ clampQ (-0.15) 0.15 v ≤ 0.13 := by
  rw [clampQ_eq_of_le _ _ _ (by linarith) (by linarith)]
  exact ⟨h0, h13⟩

/-- Branch analysis of the proficiency gain: for scores in [0, 1] every
branch yields a non-negative value of at most 0.13 = 0.1 * 1.3, so the
clamp's negative arm is never exercised. -/
theorem calculate_proficiency_gain_bounds (s lvl diff : ℚ)
    (h0 : 0 ≤ s) (h1 : s ≤ 1) :
    0 ≤ calculate_proficiency_gain s lvl diff ∧
    calculate_proficiency_gain s lvl diff ≤ 0.13 := by
  have hdef : calculate_proficiency_gain s lvl diff =
      clampQ (-0.15) 0.15
        (if 0.2 < diff - lvl then
          (if 0.7 ≤ s then s * 0.1 * 1.3
           else if s < 0.4 then s * 0.1 * 0.7
           else s * 0.1)
         else if diff - lvl < -0.2 then
          (if s < 0.6 then s * 0.1 * 0.8 else s * 0.1)
         else s * 0.1) := rfl
  rw [hdef]
  split_ifs <;> exact clampQ_bounds_of_unit _ (by nlinarith) (by nlinarith)

/-- The evaluate node never lowers `current_proficiency` when the session
score is in [0, 1] and the current proficiency is in [0, 1]. -/
theorem evaluate_node_proficiency_mono (st : AgentState) (o : EvalOracle)
    (hq0 : 0 ≤ (o.parsed.getD evaluation_fallback).quality_score)
    (hq1 : (o.parsed.getD evaluation_fallback).quality_score ≤ 1)
    (hl1 : st.current_proficiency ≤ 1) :
    st.current_proficiency ≤ (evaluate_node st o).current_proficiency := by
  unfold evaluate_node
  split_ifs with hq
  · exact le_refl _
  · have hg := calculate_proficiency_gain_bounds
      (o.parsed.getD evaluation_fallback).quality_score
      st.current_proficiency st.current_question_difficulty hq0 hq1
    show st.current_proficiency ≤
      min 1 (max 0 (st.current_proficiency +
        calculate_proficiency_gain (o.parsed.getD evaluation_fallback).quality_score
          st.current_proficiency st.current_question_difficulty))
    refine le_min hl1 (le_trans ?_ (le_max_right _ _))
    linarith [hg.1]

/-- C9 (implicit): the evaluate node's proficiency gain is non-negative —
for every score in [0, 1] and all levels/difficulties,
`_calculate_proficiency_gain` returns a value in [0, 0.13] (the base
`score*0.1` is non-negative and every multiplier 1.3, 0.7, 0.8 is positive,
so the -0.15 clamp bound is never reached), and consequently
`current_proficiency` never decreases across an `evaluate_node` step. -/
theorem evaluate_gain_nonneg_spec :
    (∀ s lvl diff : ℚ, 0 ≤ s → s ≤ 1 →
      0 ≤ calculate_proficiency_gain s lvl diff ∧
      calculate_proficiency_gain s lvl diff ≤ 0.13) ∧
    (∀ (st : AgentState) (o : EvalOracle),
      0 ≤ (o.parsed.getD evaluation_fallback).quality_score →
      (o.parsed.getD evaluation_fallback).quality_score ≤ 1 →
      st.current_proficiency ≤ 1 →
      st.current_proficiency ≤ (evaluate_node st o).current_proficiency) :=
  ⟨fun s lvl diff h0 h1 => calculate_proficiency_gain_bounds s lvl diff h0 h1,
   fun st o hq0 hq1 hl1 => evaluate_node_proficiency_mono st o hq0 hq1 hl1⟩

/-- Witness for C9: score 0.75 at level 0.5 and difficulty 0.5 gives a gain
in [0, 0.13], and the concrete evaluate step does not lower proficiency. -/
theorem evaluate_gain_nonneg_spec_witness :
    (0 ≤ calculate_proficiency_gain 0.75 0.5 0.5 ∧
      calculate_proficiency_gain 0.75 0.5 0.5 ≤ 0.13) ∧
    demo_eval_state.current_proficiency ≤
      (evaluate_node demo_eval_state demo_eval_oracle).current_proficiency :=
  ⟨evaluate_gain_nonneg_spec.1 0.75 0.5 0.5 (by norm_num) (by norm_num),
   evaluate_gain_nonneg_spec.2 demo_eval_state demo_eval_oracle
     (by norm_num [demo_eval_oracle, Option.getD])
     (by norm_num [demo_eval_oracle, Option.getD])
     (by norm_num [demo_eval_state])⟩

set_option maxRecDepth 8192 in
/-- C10 (implicit): when teaching-content parsing fails in the teach node,
the safe-parse wrapper substitutes the literal record
`{"error": "Unknown parser"}` — `parse_teaching_response` has no entry in
the fallback table — so the resulting `current_teaching_data` contains no
teaching-content fields and the derived explanation falls back to the
per-strategy default strings. -/
theorem teach_fallback_spec :
    fallback_table.lookup "parse_teaching_response" = none ∧
    teach_node_teaching_data none = [("error", JVal.str "Unknown parser")] ∧
    (teach_node_teaching_data none).lookup "explanation" = none ∧
    (teach_node_teaching_data none).lookup "questions" = none ∧
    (∀ st : AgentState,
      (teach_node st ⟨none⟩).current_teaching_data =
        [("error", JVal.str "Unknown parser")]) ∧
    extract_explanation "direct_explanation" (teach_node_teaching_data none) =
      "Direct explanation provided" ∧
    extract_explanation "socratic" (teach_node_teaching_data none) =
      "Socratic questions provided" ∧
    extract_explanation "worked_example" (teach_node_teaching_data none) =
      "Worked example: Worked example provided..." ∧
    extract_explanation "analogy" (teach_node_teaching_data none) =
      "Analogy: Analogy provided" ∧
    extract_explanation "visual" (teach_node_teaching_data none) =
      "Visual: Visual representation" :=
  ⟨rfl, rfl, rfl, rfl, fun _ => rfl, rfl, rfl, rfl, rfl, rfl⟩

/-- C3: the claim that the practice node performs no grading fails on the
code. At a concrete state and a concretely parsed practice question whose
answer is graded 0.3, the practice node appends a Learning Session, changes
`current_proficiency`, changes the strategy catalog's effectiveness,
increments both failure counters, and records into the global Effectiveness
Tracker — all effects the claim reserves for the evaluate node. -/
theorem practice_node_grades_counterexample :
    (practice_node demo_practice_state demo_practice_oracle).sessions.length =
      demo_practice_state.sessions.length + 1 ∧
    (practice_node demo_practice_state demo_practice_oracle).current_proficiency ≠
      demo_practice_state.current_proficiency ∧
    (practice_node demo_practice_state demo_practice_oracle).available_strategies ≠
      demo_practice_state.available_strategies ∧
    (practice_node demo_practice_state demo_practice_oracle).consecutive_failures =
      demo_practice_state.consecutive_failures + 1 ∧
    (practice_node demo_practice_state demo_practice_oracle).stuck_counter =
      demo_practice_state.stuck_counter + 1 ∧
    practice_tracker_records demo_practice_state demo_practice_oracle ≠ [] := by
  refine ⟨?_, ?_, ?_, ?_, ?_, ?_⟩ <;>
    simp [practice_node, practice_tracker_records, demo_practice_state,
      demo_practice_oracle, create_initial_state, update_strategy_effectiveness,
      clampQ, get_default_strategies, Option.getD] <;> norm_num

/-- C3 amended: in the canonical pipeline the practice node does grade. For
every input state and every practice-step oracle it returns the (parsed or
fallback) question and expected answer, appends exactly one Learning
Session, moves `current_proficiency` to `min 1 (old + score*0.1)`, applies
the EMA update to the strategy catalog, resets or increments
`consecutive_failures`/`stuck_counter` around the 0.6 threshold, records
into the global Effectiveness Tracker — and does not write the raw user
answer or difficulty back into the state (those fields keep their old
values). -/
theorem practice_node_spec (st : AgentState) (o : PracticeOracle) :
    (practice_node st o).current_question = (o.parsed.getD practice_fallback).question ∧
    (practice_node st o).current_correct_answer =
      (o.parsed.getD practice_fallback).expected_answer ∧
    (practice_node st o).sessions.length = st.sessions.length + 1 ∧
    (practice_node st o).current_proficiency =
      min 1 (st.current_proficiency + o.eval_quality * 0.1) ∧
    (practice_node st o).available_strategies =
      update_strategy_effectiveness st.available_strategies st.current_strategy
        o.eval_quality 0.3 ∧
    (practice_node st o).consecutive_failures =
      (if 0.6 ≤ o.eval_quality then 0 else st.consecutive_failures + 1) ∧
    (practice_node st o).stuck_counter =
      (if 0.6 ≤ o.eval_quality then 0 else st.stuck_counter + 1) ∧
    (practice_node st o).current_user_answer = st.current_user_answer ∧
    (practice_node st o).current_question_difficulty =
      st.current_question_difficulty ∧
    practice_tracker_records st o ≠ [] := by
  refine ⟨rfl, rfl, ?_, rfl, rfl, rfl, rfl, rfl, rfl, ?_⟩
  · simp [practice_node]
  · simp [practice_tracker_records]

/-- Empty session lists are sequentially numbered. -/
theorem sessions_sequential_nil : sessions_sequential [] := by
  simp [sessions_sequential]

/-- Appending one element to `List.range'`. -/
theorem range'_snoc (n : ℕ) : ∀ s : ℕ,
    List.range' s (n + 1) = List.range' s n ++ [s + n] := by
  induction n with
  | zero => intro s; simp [List.range']
  | succ n ih =>
    intro s
    rw [List.range'_succ, ih (s + 1), List.range'_succ]
    have harith : s + 1 + n = s + (n + 1) := by omega
    rw [harith, List.cons_append]

/-- Appending a record numbered `length + 1` preserves sequential
numbering. -/
theorem sessions_sequential_append (l : List LearningSession)
    (r : LearningSession) (h : sessions_sequential l)
    (hr : r.session_id = l.length + 1) :
    sessions_sequential (l ++ [r]) := by
  unfold sessions_sequential at h ⊢
  simp only [List.map_append, List.map_cons, List.map_nil, List.length_append,
    List.length_cons, List.length_nil, h, hr]
  rw [range'_snoc]
  simp [Nat.add_comm]

/-- The diagnostic single step never touches the sessions list. -/
theorem adaptive_diagnostic_node_sessions (st : AgentState)
    (o : DiagStepOracle) :
    (adaptive_diagnostic_node st o).sessions = st.sessions := by
  simp only [adaptive_diagnostic_node]
  split_ifs <;> rfl

/-- The diagnostic loop never touches the sessions list. -/
theorem diagnostic_phase_loop_sessions (fuel : Nat) :
    ∀ (st : AgentState) (oracle : Nat → DiagStepOracle),
      (diagnostic_phase_loop fuel st oracle).sessions = st.sessions := by
  induction fuel with
  | zero => intro st oracle; rfl
  | succ fuel ih =>
    intro st oracle
    rw [diagnostic_phase_loop]
    split_ifs
    · rw [ih, adaptive_diagnostic_node_sessions]
    · rfl

/-- Every canonical node application preserves sequential session
numbering: the two appending nodes (practice, evaluate) number the new
record `len + 1`, and the other nodes never write the sessions field. -/
theorem apply_node_sessions_sequential (st : AgentState) (step : NodeStep)
    (h : sessions_sequential st.sessions) :
    sessions_sequential (apply_node st step).sessions := by
  cases step with
  | diagnostic oracle =>
    show sessions_sequential (diagnostic_phase_node st oracle).sessions
    unfold diagnostic_phase_node
    split_ifs
    · exact h
    · show sessions_sequential
        (diagnostic_phase_loop MAX_DIAGNOSTIC_QUESTIONS st oracle).sessions
      rw [diagnostic_phase_loop_sessions]
      exact h
  | selector o =>
    show sessions_sequential (strategy_selector_node st o).sessions
    simp only [strategy_selector_node]
    split_ifs <;> exact h
  | teach o => exact h
  | practice o => exact sessions_sequential_append _ _ h rfl
  | evaluate o =>
    show sessions_sequential (evaluate_node st o).sessions
    unfold evaluate_node
    split_ifs
    · exact h
    · exact sessions_sequential_append _ _ h rfl
  | meta o => exact h

/-- Sequential numbering is an invariant of whole runs. -/
theorem run_nodes_sessions_sequential (steps : List NodeStep) :
    ∀ st : AgentState, sessions_sequential st.sessions →
      sessions_sequential (run_nodes st steps).sessions := by
  induction steps with
  | nil => intro st h; exact h
  | cons s rest ih =>
    intro st h
    exact ih (apply_node st s) (apply_node_sessions_sequential st s h)

/-- C8: in every run of the canonical pipeline from the initial state, the
recorded `session_id`s are exactly 1, 2, ..., n in order — the Nth Learning
Session appended has `session_id = N`, strictly increasing from 1 with no
gaps, because each appending node assigns `session_id = current session
count + 1`. -/
theorem run_session_ids_spec (topic : String) (steps : List NodeStep) :
    ((run_nodes (create_initial_state topic) steps).sessions).map
        (fun s => s.session_id) =
      List.range' 1 ((run_nodes (create_initial_state topic) steps).sessions).length :=
  run_nodes_sessions_sequential steps (create_initial_state topic)
    sessions_sequential_nil

/-- Inside the driving loop (confidence below threshold, question budget not
exhausted) every diagnostic step raises confidence by exactly the 0.1
increment (capped at 1) and asks exactly one question, whatever the LLM
responses and console answers were. -/
theorem adaptive_step_conf_len (st : AgentState) (o : DiagStepOracle)
    (h1 : st.diagnostic_confidence < MIN_DIAGNOSTIC_CONFIDENCE)
    (h2 : st.diagnostic_questions.length < MAX_DIAGNOSTIC_QUESTIONS) :
    (adaptive_diagnostic_node st o).diagnostic_confidence =
      min 1 (st.diagnostic_confidence + CONFIDENCE_INCREMENT) ∧
    (adaptive_diagnostic_node st o).diagnostic_questions.length =
      st.diagnostic_questions.length + 1 := by
  simp only [adaptive_diagnostic_node]
  rw [if_neg (not_le.mpr h1), if_neg (not_le.mpr h2)]
  exact ⟨rfl, by simp⟩

/-- Along the driving loop the confidence is locked to (question count)/10:
starting from such a state with at most 5 questions, the loop always stops
at exactly 5 questions with confidence exactly 5/10 = 1/2. The fuel bound
`5 - length ≤ fuel` shows the loop condition itself (not fuel exhaustion)
ends the recursion. -/
theorem diagnostic_phase_loop_spec (fuel : Nat) :
    ∀ (st : AgentState) (oracle : Nat → DiagStepOracle),
      st.diagnostic_confidence = (st.diagnostic_questions.length : ℚ) / 10 →
      st.diagnostic_questions.length ≤ 5 →
      5 - st.diagnostic_questions.length ≤ fuel →
      (diagnostic_phase_loop fuel st oracle).diagnostic_questions.length = 5 ∧
      (diagnostic_phase_loop fuel st oracle).diagnostic_confidence = 1 / 2 := by
  induction fuel with
  | zero =>
    intro st oracle hc hle hfuel
    have h5 : st.diagnostic_questions.length = 5 := by omega
    refine ⟨h5, ?_⟩
    show st.diagnostic_confidence = 1 / 2
    rw [hc, h5]
    norm_num
  | succ fuel ih =>
    intro st oracle hc hle hfuel
    by_cases h5 : st.diagnostic_questions.length = 5
    · have hcond : ¬ (st.diagnostic_confidence < MIN_DIAGNOSTIC_CONFIDENCE ∧
          st.diagnostic_questions.length < MAX_DIAGNOSTIC_QUESTIONS) := by
        intro hcon
        rw [h5] at hcon
        simp [MAX_DIAGNOSTIC_QUESTIONS] at hcon
      simp only [diagnostic_phase_loop]
      rw [if_neg hcond]
      exact ⟨h5, by rw [hc, h5]; norm_num⟩
    · have hlt : st.diagnostic_questions.length < 5 := lt_of_le_of_ne hle h5
      have hcast : (st.diagnostic_questions.length : ℚ) ≤ 4 := by
        exact_mod_cast Nat.lt_succ_iff.mp hlt
      have hconf : st.diagnostic_confidence < MIN_DIAGNOSTIC_CONFIDENCE := by
        rw [hc]
        unfold MIN_DIAGNOSTIC_CONFIDENCE
        linarith
      have hmax : st.diagnostic_questions.length < MAX_DIAGNOSTIC_QUESTIONS := by
        simpa [MAX_DIAGNOSTIC_QUESTIONS] using hlt
      simp only [diagnostic_phase_loop]
      rw [if_pos ⟨hconf, hmax⟩]
      obtain ⟨hcnew, hlnew⟩ :=
        adaptive_step_conf_len st (oracle st.diagnostic_questions.length) hconf hmax
      apply ih
      · rw [hcnew, hlnew, hc]
        rw [min_eq_right (by unfold CONFIDENCE_INCREMENT; linarith)]
        unfold CONFIDENCE_INCREMENT
        push_cast
        ring
      · omega
      · omega

/-- From the untouched initial state (confidence 0, no questions), the
diagnostic phase node always finishes with exactly 5 questions and
confidence exactly 1/2, for every oracle. -/
theorem diagnostic_phase_node_from_initial (topic : String)
    (oracle : Nat → DiagStepOracle) :
    (diagnostic_phase_node (create_initial_state topic) oracle).diagnostic_questions.length = 5 ∧
    (diagnostic_phase_node (create_initial_state topic) oracle).diagnostic_confidence = 1 / 2 := by
  have h0 : ¬ (MIN_DIAGNOSTIC_CONFIDENCE ≤
      (create_initial_state topic).diagnostic_confidence) := by
    unfold MIN_DIAGNOSTIC_CONFIDENCE create_initial_state
    norm_num
  obtain ⟨hl, hcq⟩ := diagnostic_phase_loop_spec MAX_DIAGNOSTIC_QUESTIONS
    (create_initial_state topic) oracle
    (by simp [create_initial_state]) (by simp [create_initial_state])
    (by simp [create_initial_state, MAX_DIAGNOSTIC_QUESTIONS])
  simp only [diagnostic_phase_node]
  rw [if_neg h0]
  exact ⟨hl, hcq⟩

/-- C2 counterexample: the claim that the diagnostic driving loop exits with
confidence at least 0.8 is false at a concrete run. With every question
parse failing and every answer graded 0.5, the loop from the initial state
asks 5 questions and exits with confidence exactly 0.5 < 0.8: the loop
condition `num_questions < MAX_DIAGNOSTIC_QUESTIONS` stops it before
`adaptive_diagnostic_node` could ever take its force-to-0.8 branch. -/
theorem diagnostic_phase_low_confidence_counterexample :
    (diagnostic_phase_node (create_initial_state "binary search")
      demo_diag_oracle).diagnostic_questions.length = 5 ∧
    ¬ (MIN_DIAGNOSTIC_CONFIDENCE ≤
      (diagnostic_phase_node (create_initial_state "binary search")
        demo_diag_oracle).diagnostic_confidence) := by
  obtain ⟨hl, hc⟩ :=
    diagnostic_phase_node_from_initial "binary search" demo_diag_oracle
  refine ⟨hl, ?_⟩
  rw [hc]
  unfold MIN_DIAGNOSTIC_CONFIDENCE
  norm_num

/-- C2 amended: for every diagnostic run from the initial state (confidence
0, no questions) the driving loop asks at most 5 questions — in fact
exactly 5 — but exits with confidence exactly 0.5, not 0.8: the
0.1-per-question increments from 0 only reach 0.5 in 5 questions, and the
single-step force-to-0.8 branch is unreachable from the driving loop
because the loop's own `< 5` guard stops first. -/
theorem diagnostic_phase_exit_spec (topic : String)
    (oracle : Nat → DiagStepOracle) :
    (diagnostic_phase_node (create_initial_state topic)
      oracle).diagnostic_questions.length ≤ 5 ∧
    (diagnostic_phase_node (create_initial_state topic)
      oracle).diagnostic_questions.length = 5 ∧
    (diagnostic_phase_node (create_initial_state topic)
      oracle).diagnostic_confidence = 1 / 2 := by
  obtain ⟨hl, hc⟩ := diagnostic_phase_node_from_initial topic oracle
  exact ⟨le_of_eq hl, hl, hc⟩

end MetaTutor
